import Mathlib

/-!
Shallow embedding of the POS sale transaction engine of the restaurant_os
repository (`restaurant_os/models.py`, `restaurant_os/views.py`,
`restaurant_os/serializers.py`), together with theorems settling the frozen
claims about it.

Conventions of the embedding:
* Python `Decimal` values are modelled as `ℚ` (exact decimal arithmetic).
* Database rows are records in lists inside a `St` (store) value; Django
  `transaction.atomic()` blocks are modelled by returning either the updated
  store (commit) or the original store (rollback).  An early `return` inside
  an atomic block commits, an exception rolls back — both are translated
  explicitly, branch by branch, from the source.
* Foreign keys are modelled as ids resolved by `List.find?`; referential
  integrity (which Django guarantees) makes the `Option.getD` defaults
  unreachable in well-formed stores.
-/

namespace RestaurantOS

/-- One inventory row: `InventoryItem` of models.py (fields used by the core:
id, name, quantity_in_stock, unit). -/
structure InventoryItem where
  id : ℕ
  name : String
  stock : ℚ
  unit : String
  deriving DecidableEq, Repr

/-- One `RecipeIngredient` row of models.py: inventory_item FK, quantity per
serving, unit label, is_optional flag. -/
structure RecipeIngredient where
  inventoryItemId : ℕ
  quantity : ℚ
  unit : String
  isOptional : Bool
  deriving DecidableEq, Repr

/-- A `Recipe` row of models.py (is_active flag and its ingredient set). -/
structure Recipe where
  isActive : Bool
  ingredients : List RecipeIngredient
  deriving DecidableEq, Repr

/-- A `MenuItem` row of models.py: restaurant FK, price, and the optional
one-to-one recipe (the Django `hasattr(menu_item, recipe)` duck test becomes
an explicit `Option`). -/
structure MenuItem where
  id : ℕ
  restaurantId : ℕ
  name : String
  price : ℚ
  recipe : Option Recipe
  deriving DecidableEq, Repr

/-- A `Customer` row of models.py: name and unique contact. -/
structure Customer where
  name : String
  contact : String
  deriving DecidableEq, Repr

/-- A `Branch` row joined with its restaurant.  Modelled from the spec:
`tax_rate` (a flat percentage such as 17.0) lives on the Restaurant model
generation that views.py reads (`branch.restaurant.tax_rate`); that model
file is not under src/, so the field is taken from the spec. -/
structure Branch where
  id : ℕ
  restaurantId : ℕ
  taxRate : ℚ
  deriving DecidableEq, Repr

/-- A `POSSaleItem` row of models.py: menu_item FK, quantity, and the
price/tax/total snapshot taken at sale time. -/
structure SaleLine where
  menuItemId : ℕ
  quantity : ℤ
  unitPrice : ℚ
  taxAmount : ℚ
  total : ℚ
  deriving DecidableEq, Repr

/-- A `POSSale` row of models.py together with its line items.  The offline
identifier is the unique nullable column (`offline_id` in models.py, written
as `offline_sale_id` by views.py against its model generation). -/
structure Sale where
  id : ℕ
  branchId : ℕ
  customerContact : String
  paymentMethod : String
  subtotal : ℚ
  taxAmount : ℚ
  discountAmount : ℚ
  total : ℚ
  offlineSaleId : Option String
  lines : List SaleLine
  deriving DecidableEq, Repr

/-- An `InventoryTransaction` row of models.py.  `previousQuantity` and
`newQuantity` are `Option` at the object level because the adjust_stock view
constructs the record without them; the columns themselves are NOT NULL, so
an insert with `none` fails (see `txnInsertOk`). -/
structure InvTxn where
  inventoryItemId : ℕ
  ttype : String
  quantity : ℚ
  unit : String
  saleId : Option ℕ
  previousQuantity : Option ℚ
  newQuantity : Option ℚ
  notes : String
  deriving DecidableEq, Repr

/-- The NOT NULL constraint of the `previous_quantity` and `new_quantity`
columns of `InventoryTransaction` (models.py lines 539-540): an insert
succeeds only when both are supplied. -/
def txnInsertOk (t : InvTxn) : Bool :=
  t.previousQuantity.isSome && t.newQuantity.isSome

/-- The persistent store: the relational tables the core touches. -/
structure St where
  branches : List Branch
  menuItems : List MenuItem
  inventory : List InventoryItem
  customers : List Customer
  sales : List Sale
  transactions : List InvTxn
  nextSaleId : ℕ
  deriving DecidableEq, Repr

/-- Resolve an inventory item FK. -/
def findInv (inv : List InventoryItem) (i : ℕ) : Option InventoryItem :=
  inv.find? (fun x => x.id = i)

/-- Resolve a menu item by primary key (the unfiltered
`MenuItem.objects.get(id=...)` of views.py). -/
def findMenu (menu : List MenuItem) (i : ℕ) : Option MenuItem :=
  menu.find? (fun x => x.id = i)

/-- Resolve a menu item by primary key restricted to one restaurant
(`MenuItem.objects.get(id=..., restaurant=branch.restaurant)`,
views.py line 1089). -/
def findMenuOfRestaurant (menu : List MenuItem) (i rid : ℕ) : Option MenuItem :=
  menu.find? (fun x => x.id = i && x.restaurantId = rid)

/-- Write back one mutated inventory row (`self.save()`). -/
def updateInv (inv : List InventoryItem) (it : InventoryItem) : List InventoryItem :=
  inv.map (fun x => if x.id = it.id then it else x)

/-- One shortage entry of `Recipe.check_availability` (models.py lines
451-457): item name, required, available, shortage, unit — the name and unit
come from the inventory item. -/
structure Shortage where
  item : String
  required : ℚ
  available : ℚ
  shortage : ℚ
  unit : String
  deriving DecidableEq, Repr

/-- The body of one loop iteration of `Recipe.check_availability`
(models.py lines 446-457): compare `ingredient.quantity * quantity` with the
ingredient inventory item stock and emit a shortage entry when short. -/
def shortEntry (q : ℤ) (inv : List InventoryItem) (ing : RecipeIngredient) :
    Option Shortage :=
  let required : ℚ := ing.quantity * (q : ℚ)
  let available : ℚ := ((findInv inv ing.inventoryItemId).map (fun x => x.stock)).getD 0
  if available < required then
    some { item := ((findInv inv ing.inventoryItemId).map (fun x => x.name)).getD ""
           required := required
           available := available
           shortage := required - available
           unit := ((findInv inv ing.inventoryItemId).map (fun x => x.unit)).getD "" }
  else none

/-- The accumulation loop of `Recipe.check_availability`: every ingredient of
the recipe is visited, with no test of `is_optional` (models.py line 446). -/
def availGo (q : ℤ) (inv : List InventoryItem) :
    List RecipeIngredient → List Shortage
  | [] => []
  | ing :: rest =>
    match shortEntry q inv ing with
    | some e => e :: availGo q inv rest
    | none => availGo q inv rest

/-- `Recipe.check_availability(self, quantity)` of models.py lines 439-459:
returns `(is_available, missing_items)`. -/
def Recipe.check_availability (r : Recipe) (q : ℤ) (inv : List InventoryItem) :
    Bool × List Shortage :=
  let missing := availGo q inv r.ingredients
  (missing.isEmpty, missing)

/-- Ledger-level failure modes of `InventoryItem.deduct_quantity` and
`add_quantity` (models.py lines 322-377): the two `ValueError`s, plus the
unreachable broken-FK case. -/
inductive DeductErr where
  | invalidQuantity
  | insufficientStock (name : String) (stock required : ℚ)
  | missingItem
  deriving DecidableEq, Repr

/-- `InventoryItem.deduct_quantity` (models.py lines 322-352): reject a
non-positive quantity, reject a quantity above current stock, else decrement
and build the full audit record carrying previous and new quantities. -/
def InventoryItem.deduct_quantity (item : InventoryItem) (q : ℚ) (ttype : String)
    (saleId : Option ℕ) (notes : String) :
    Except DeductErr (InventoryItem × InvTxn) :=
  if q ≤ 0 then .error .invalidQuantity
  else if item.stock < q then .error (.insufficientStock item.name item.stock q)
  else
    .ok ({ item with stock := item.stock - q },
         { inventoryItemId := item.id
           ttype := ttype
           quantity := q
           unit := item.unit
           saleId := saleId
           previousQuantity := some item.stock
           newQuantity := some (item.stock - q)
           notes := notes })

/-- `InventoryItem.add_quantity` (models.py lines 354-377): symmetric to
deduction, with no upper bound. -/
def InventoryItem.add_quantity (item : InventoryItem) (q : ℚ) (ttype : String)
    (notes : String) : Except DeductErr (InventoryItem × InvTxn) :=
  if q ≤ 0 then .error .invalidQuantity
  else
    .ok ({ item with stock := item.stock + q },
         { inventoryItemId := item.id
           ttype := ttype
           quantity := q
           unit := item.unit
           saleId := none
           previousQuantity := some item.stock
           newQuantity := some (item.stock + q)
           notes := notes })

/-- The store-level effect of one `deduct_quantity` call: resolve the item,
run the deduction, and on success persist the decremented row together with
exactly one appended audit record — both inside the same atomic unit, so an
error leaves the pair untouched. -/
def stockLedgerDeduct (inv : List InventoryItem) (txns : List InvTxn) (itemId : ℕ)
    (q : ℚ) (ttype : String) (saleId : Option ℕ) (notes : String) :
    Except DeductErr (List InventoryItem × List InvTxn) :=
  match findInv inv itemId with
  | none => .error .missingItem
  | some item =>
    match item.deduct_quantity q ttype saleId notes with
    | .error e => .error e
    | .ok (item', txn) => .ok (updateInv inv item', txns ++ [txn])

/-- One entry of the `deductions_made` list of
`POSSale.process_inventory_deductions` (models.py lines 233-237): inventory
item name, quantity deducted, and the ingredient unit label. -/
structure Deduction where
  item : String
  quantity : ℚ
  unit : String
  deriving DecidableEq, Repr

/-- Render a ledger error the way the Python `ValueError` messages read
(models.py lines 327 and 330-333), without the interpolated numbers. -/
def describeDeductErr : DeductErr → String
  | .invalidQuantity => "Quantity must be positive"
  | .insufficientStock n _ _ => "Insufficient stock: " ++ n
  | .missingItem => "inventory item does not exist"

/-- The inner ingredient loop of `POSSale.process_inventory_deductions`
(models.py lines 221-237): deduct `ingredient.quantity * sale_item.quantity`
for every non-optional ingredient, recording each deduction; a ledger
exception aborts the whole unit. -/
def deductIngredients (saleQty : ℤ) (saleId : ℕ) (note : String)
    (ings : List RecipeIngredient) (inv : List InventoryItem)
    (txns : List InvTxn) (deds : List Deduction) :
    Except DeductErr (List InventoryItem × List InvTxn × List Deduction) :=
  match ings with
  | [] => .ok (inv, txns, deds)
  | ing :: rest =>
    if ing.isOptional then deductIngredients saleQty saleId note rest inv txns deds
    else
      let qty : ℚ := ing.quantity * (saleQty : ℚ)
      match stockLedgerDeduct inv txns ing.inventoryItemId qty "sale" (some saleId) note with
      | .error e => .error e
      | .ok (inv', txns') =>
        let nm := ((findInv inv ing.inventoryItemId).map (fun x => x.name)).getD ""
        deductIngredients saleQty saleId note rest inv' txns'
          (deds ++ [{ item := nm, quantity := qty, unit := ing.unit }])

/-- The per-line body of `POSSale.process_inventory_deductions` (models.py
lines 201-237): skip lines whose menu item has no recipe or an inactive one;
re-check availability and on shortage record an error string and continue;
otherwise deduct every non-optional ingredient. -/
def pidLine (menu : List MenuItem) (saleId : ℕ) (line : SaleLine)
    (inv : List InventoryItem) (txns : List InvTxn) (deds : List Deduction)
    (errs : List String) :
    Except DeductErr (List InventoryItem × List InvTxn × List Deduction × List String) :=
  match findMenu menu line.menuItemId with
  | none => .error .missingItem
  | some mi =>
    match mi.recipe with
    | none => .ok (inv, txns, deds, errs)
    | some r =>
      if r.isActive = false then .ok (inv, txns, deds, errs)
      else
        let av := r.check_availability line.quantity inv
        if av.1 = false then
          .ok (inv, txns, deds, errs ++ ["Insufficient ingredients for " ++ mi.name])
        else
          match deductIngredients line.quantity saleId mi.name r.ingredients inv txns deds with
          | .error e => .error e
          | .ok (inv', txns', deds') => .ok (inv', txns', deds', errs)

/-- The outer loop of `POSSale.process_inventory_deductions` over all sale
line items. -/
def pidGo (menu : List MenuItem) (saleId : ℕ) (lines : List SaleLine)
    (inv : List InventoryItem) (txns : List InvTxn) (deds : List Deduction)
    (errs : List String) :
    Except DeductErr (List InventoryItem × List InvTxn × List Deduction × List String) :=
  match lines with
  | [] => .ok (inv, txns, deds, errs)
  | l :: rest =>
    match pidLine menu saleId l inv txns deds errs with
    | .error e => .error e
    | .ok (inv', txns', deds', errs') => pidGo menu saleId rest inv' txns' deds' errs'

/-- `POSSale.process_inventory_deductions` (models.py lines 191-246).  The
whole body runs inside `transaction.atomic()` and catches every exception,
so the result is either `.ok` with the updated inventory, the newly appended
audit records and the deduction list, or `.error` with a message and no
state change at all (rollback). -/
def Sale.process_inventory_deductions (sale : Sale) (menu : List MenuItem)
    (inv : List InventoryItem) :
    Except String (List InventoryItem × List InvTxn × List Deduction) :=
  match pidGo menu sale.id sale.lines inv [] [] [] with
  | .error e => .error (describeDeductErr e)
  | .ok (inv', txns, deds, errs) =>
    if errs.isEmpty then .ok (inv', txns, deds)
    else .error ("Inventory deduction failed: " ++ String.intercalate "; " errs)

/-! ### The create-sale endpoint (views.py lines 1035-1160) -/

/-- One element of the request `items` list: the serializer leaves these as
raw dicts (serializers.py line 158), so the only structure is the two keys
the view reads. -/
structure LineReq where
  menuItemId : ℕ
  quantity : ℤ
  deriving DecidableEq, Repr

/-- A create-sale request body.  `access` is the outcome of
`check_branch_access` (identity and role management are out of scope);
`skipInventoryCheck` defaults to false at the HTTP layer. -/
structure CreateSaleReq where
  branchId : Option ℕ
  access : Bool
  customerName : String
  customerContact : String
  paymentMethod : String
  discountAmount : ℚ
  items : List LineReq
  offlineSaleId : Option String
  skipInventoryCheck : Bool
  deriving DecidableEq, Repr

/-- `CreatePOSSaleSerializer` (serializers.py lines 153-158): the typed
fields are guaranteed by the request record itself; the only rejectable
content is the payment-method choice.  The `items` list is a bare
`ListField(child=DictField())`: it may be empty and its dicts carry no
quantity or menu-item validation. -/
def serializerOk (r : CreateSaleReq) : Bool :=
  r.paymentMethod = "cash" || r.paymentMethod = "card" || r.paymentMethod = "digital"

/-- `Customer.objects.get_or_create(contact=..., defaults=...)` (views.py
lines 1061-1064): an existing customer is returned untouched; the supplied
name is used only when a new row is created. -/
def getOrCreateCustomer (st : St) (contact name : String) : Customer × St :=
  match st.customers.find? (fun c => c.contact = contact) with
  | some c => (c, st)
  | none =>
    let c : Customer := { name := name, contact := contact }
    (c, { st with customers := st.customers ++ [c] })

/-- Outcome of the availability pre-check loop of views.py lines 1072-1085:
a missing menu item raises `DoesNotExist`; the first line whose active
recipe reports shortages returns them at once. -/
inductive PreFail where
  | notFound
  | shortage (item : String) (missing : List Shortage)
  deriving DecidableEq, Repr

/-- The availability pre-check loop (views.py lines 1072-1085): resolve each
menu item without a restaurant filter and return on the first line whose
active recipe is short. -/
def preCheck (menu : List MenuItem) (inv : List InventoryItem) :
    List LineReq → Except PreFail Unit
  | [] => .ok ()
  | l :: rest =>
    match findMenu menu l.menuItemId with
    | none => .error .notFound
    | some mi =>
      match mi.recipe with
      | none => preCheck menu inv rest
      | some r =>
        if r.isActive = false then preCheck menu inv rest
        else
          let av := r.check_availability l.quantity inv
          if av.1 then preCheck menu inv rest
          else .error (.shortage mi.name av.2)

/-- The totals loop of views.py lines 1087-1105 (restaurant-filtered menu
lookup): per line `item_subtotal = unit_price * quantity`,
`item_tax = item_subtotal * rate`, `item_total = item_subtotal + item_tax`,
accumulating subtotal and tax totals.  `rate` is the already divided
`tax_rate / 100`. -/
def computeTotalsRestr (menu : List MenuItem) (rid : ℕ) (rate : ℚ) :
    List LineReq → Except Unit (List SaleLine × ℚ × ℚ)
  | [] => .ok ([], 0, 0)
  | l :: rest =>
    match findMenuOfRestaurant menu l.menuItemId rid with
    | none => .error ()
    | some mi =>
      let sub : ℚ := mi.price * (l.quantity : ℚ)
      let tax : ℚ := sub * rate
      let line : SaleLine :=
        { menuItemId := l.menuItemId, quantity := l.quantity, unitPrice := mi.price
          taxAmount := tax, total := sub + tax }
      match computeTotalsRestr menu rid rate rest with
      | .error e => .error e
      | .ok (ls, s, t) => .ok (line :: ls, sub + s, tax + t)

/-- The same totals loop as run by the bulk-sync path (views.py lines
1209-1216 and 1232-1247), whose menu lookup has no restaurant filter. -/
def computeTotalsAny (menu : List MenuItem) (rate : ℚ) :
    List LineReq → Except Unit (List SaleLine × ℚ × ℚ)
  | [] => .ok ([], 0, 0)
  | l :: rest =>
    match findMenu menu l.menuItemId with
    | none => .error ()
    | some mi =>
      let sub : ℚ := mi.price * (l.quantity : ℚ)
      let tax : ℚ := sub * rate
      let line : SaleLine :=
        { menuItemId := l.menuItemId, quantity := l.quantity, unitPrice := mi.price
          taxAmount := tax, total := sub + tax }
      match computeTotalsAny menu rate rest with
      | .error e => .error e
      | .ok (ls, s, t) => .ok (line :: ls, sub + s, tax + t)

/-- The unique constraint on the offline sale identifier (models.py line
184: `unique=True`, null allowed): inserting a sale whose supplied offline
id already exists raises `IntegrityError`. -/
def dupOffline (sales : List Sale) (oid : Option String) : Bool :=
  match oid with
  | none => false
  | some x => sales.any (fun s => s.offlineSaleId = some x)

/-- Responses of `POSViewSet.create_sale`, one constructor per return site
of views.py lines 1035-1160. -/
inductive CreateSaleRes where
  | validationError (msg : String)
  | accessDenied
  | branchNotFound
  | insufficientInventory (item : String) (missing : List Shortage)
  | badRequest (msg : String)
  | created (saleId : ℕ) (subtotal taxAmount discountAmount total : ℚ)
      (itemsCount : ℕ) (deductions : List Deduction)
  deriving DecidableEq, Repr

/-- Whether a create-sale response is the 201 success. -/
def CreateSaleRes.isCreated : CreateSaleRes → Bool
  | .created _ _ _ _ _ _ _ => true
  | _ => false

/-- The tail of `create_sale` after the availability pre-check (views.py
lines 1087-1153): totals, sale row (with the unique offline id), line items,
deduction processing, and the 201 response; exceptions roll back to the
pre-request store `st`. -/
def createSaleFinish (req : CreateSaleReq) (st st1 : St) (branch : Branch) :
    CreateSaleRes × St :=
  match computeTotalsRestr st1.menuItems branch.restaurantId (branch.taxRate / 100) req.items with
  | .error _ => (.badRequest "One or more menu items not found", st)
  | .ok (lines, subtotal, taxTotal) =>
    let total := subtotal + taxTotal - req.discountAmount
    if dupOffline st1.sales req.offlineSaleId then
      (.badRequest "UNIQUE constraint failed: offline sale id", st)
    else
      let sale : Sale :=
        { id := st1.nextSaleId, branchId := branch.id
          customerContact := req.customerContact, paymentMethod := req.paymentMethod
          subtotal := subtotal, taxAmount := taxTotal
          discountAmount := req.discountAmount, total := total
          offlineSaleId := req.offlineSaleId, lines := lines }
      let st2 := { st1 with sales := st1.sales ++ [sale], nextSaleId := st1.nextSaleId + 1 }
      match sale.process_inventory_deductions st2.menuItems st2.inventory with
      | .error msg => (.badRequest msg, st)
      | .ok (inv', newTxns, deds) =>
        (.created sale.id subtotal taxTotal req.discountAmount total lines.length deds,
         { st2 with inventory := inv', transactions := st2.transactions ++ newTxns })

/-- `POSViewSet.create_sale` (views.py lines 1035-1160).  The atomic block
is translated per branch: an exception (missing menu item, duplicate offline
id, failed deduction) rolls everything back to `st`; the early
`return Response` of the availability pre-check exits the block normally and
therefore commits the customer row created just before it (`st1`). -/
def create_sale (req : CreateSaleReq) (st : St) : CreateSaleRes × St :=
  if serializerOk req = false then (.validationError "invalid sale data", st)
  else
    match req.branchId with
    | none => (.validationError "branch_id is required", st)
    | some bid =>
      if req.access = false then (.accessDenied, st)
      else
        match st.branches.find? (fun b => b.id = bid) with
        | none => (.branchNotFound, st)
        | some branch =>
          let st1 := (getOrCreateCustomer st req.customerContact req.customerName).2
          if req.skipInventoryCheck then createSaleFinish req st st1 branch
          else
            match preCheck st1.menuItems st1.inventory req.items with
            | .error .notFound => (.badRequest "One or more menu items not found", st)
            | .error (.shortage nm missing) => (.insufficientInventory nm missing, st1)
            | .ok _ => createSaleFinish req st st1 branch

/-! ### The bulk-sync endpoint (views.py lines 1162-1268) -/

/-- One entry of the `successful` result list of `bulk_sync_sales`
(views.py lines 1251-1255). -/
structure SuccEntry where
  offlineId : Option String
  saleId : ℕ
  total : ℚ
  deriving DecidableEq, Repr

/-- One entry of the `failed` result list of `bulk_sync_sales`. -/
structure FailEntry where
  offlineId : Option String
  error : String
  deriving DecidableEq, Repr

/-- One iteration of the `bulk_sync_sales` loop (views.py lines 1175-1261):
access check, serializer, then the per-request atomic block.  Any exception
inside the block rolls that request back to the incoming store and is
recorded in the failed list.  The return value of
`sale.process_inventory_deductions()` is discarded (line 1249), so a
deduction failure still commits the sale and counts as success. -/
def processOne (req : CreateSaleReq) (st : St) :
    Except FailEntry SuccEntry × St :=
  if req.access = false then
    (.error { offlineId := req.offlineSaleId, error := "Access denied to branch" }, st)
  else if serializerOk req = false then
    (.error { offlineId := req.offlineSaleId, error := "invalid sale data" }, st)
  else
    match (match req.branchId with
           | none => (none : Option Branch)
           | some bid => st.branches.find? (fun b => b.id = bid)) with
    | none =>
      (.error { offlineId := req.offlineSaleId, error := "Branch matching query does not exist" }, st)
    | some branch =>
      let st1 := (getOrCreateCustomer st req.customerContact req.customerName).2
      match computeTotalsAny st1.menuItems (branch.taxRate / 100) req.items with
      | .error _ =>
        (.error { offlineId := req.offlineSaleId, error := "MenuItem matching query does not exist" }, st)
      | .ok (lines, subtotal, taxTotal) =>
        let total := subtotal + taxTotal - req.discountAmount
        if dupOffline st1.sales req.offlineSaleId then
          (.error { offlineId := req.offlineSaleId, error := "UNIQUE constraint failed: offline sale id" }, st)
        else
          let sale : Sale :=
            { id := st1.nextSaleId, branchId := branch.id
              customerContact := req.customerContact, paymentMethod := req.paymentMethod
              subtotal := subtotal, taxAmount := taxTotal
              discountAmount := req.discountAmount, total := total
              offlineSaleId := req.offlineSaleId, lines := lines }
          let st2 := { st1 with sales := st1.sales ++ [sale], nextSaleId := st1.nextSaleId + 1 }
          match sale.process_inventory_deductions st2.menuItems st2.inventory with
          | .error _ =>
            (.ok { offlineId := req.offlineSaleId, saleId := sale.id, total := total }, st2)
          | .ok (inv', newTxns, _) =>
            (.ok { offlineId := req.offlineSaleId, saleId := sale.id, total := total },
             { st2 with inventory := inv', transactions := st2.transactions ++ newTxns })

/-- The fold of `bulk_sync_sales` over the request list, in input order,
separating successes and failures. -/
def bulkGo : List CreateSaleReq → St → List SuccEntry × List FailEntry × St
  | [], st => ([], [], st)
  | r :: rest, st =>
    match processOne r st with
    | (.ok s, st') =>
      let tail := bulkGo rest st'
      (s :: tail.1, tail.2.1, tail.2.2)
    | (.error f, st') =>
      let tail := bulkGo rest st'
      (tail.1, f :: tail.2.1, tail.2.2)

/-- Responses of `POSViewSet.bulk_sync_sales`: a 400 when no sales data is
supplied (views.py lines 1167-1168), otherwise the 200 report with the
synced and failed counts and both result lists. -/
inductive BulkRes where
  | noData
  | report (synced failedCount : ℕ) (successful : List SuccEntry) (failures : List FailEntry)
  deriving DecidableEq, Repr

/-- `POSViewSet.bulk_sync_sales` (views.py lines 1162-1268). -/
def bulk_sync_sales (reqs : List CreateSaleReq) (st : St) : BulkRes × St :=
  if reqs.isEmpty then (.noData, st)
  else
    let r := bulkGo reqs st
    (.report r.1.length r.2.1.length r.1 r.2.1, r.2.2)

/-! ### The manual stock-adjustment endpoint (views.py lines 1778-1816) -/

/-- Outcomes of `InventoryViewSet.adjust_stock`, one constructor per return
site; `insertFailed` is the 500 raised when the audit-record insert violates
the NOT NULL constraints on `previous_quantity` and `new_quantity`, after
the stock row has already been saved (there is no `transaction.atomic` in
this view). -/
inductive AdjustRes where
  | notFound
  | permissionDenied
  | zeroAdjustment
  | negativeStock
  | insertFailed
  | adjusted (oldQuantity newQuantity : ℚ)
  deriving DecidableEq, Repr

/-- `InventoryViewSet.adjust_stock` (views.py lines 1778-1816): the stock
row is mutated directly (`item.quantity_in_stock += adjustment; item.save()`)
without going through `deduct_quantity` or `add_quantity`, and the audit
record is created without `previous_quantity`, `new_quantity` or `unit`. -/
def adjust_stock (st : St) (itemId : ℕ) (roleOk : Bool) (adjustment : ℚ)
    (ttype notes : String) : AdjustRes × St :=
  match findInv st.inventory itemId with
  | none => (.notFound, st)
  | some item =>
    if roleOk = false then (.permissionDenied, st)
    else if adjustment = 0 then (.zeroAdjustment, st)
    else
      let newStock := item.stock + adjustment
      if newStock < 0 then (.negativeStock, st)
      else
        let stSaved :=
          { st with inventory := updateInv st.inventory { item with stock := newStock } }
        let txn : InvTxn :=
          { inventoryItemId := item.id, ttype := ttype, quantity := |adjustment|
            unit := "", saleId := none, previousQuantity := none
            newQuantity := none, notes := notes }
        if txnInsertOk txn then
          (.adjusted item.stock newStock, { stSaved with transactions := stSaved.transactions ++ [txn] })
        else (.insertFailed, stSaved)

/-! ### Helper lemmas -/

/-- Resolving or creating the customer touches no table other than
`customers`. -/
theorem getOrCreateCustomer_frame (st : St) (contact name : String) :
    ((getOrCreateCustomer st contact name).2.sales = st.sales)
    ∧ ((getOrCreateCustomer st contact name).2.inventory = st.inventory)
    ∧ ((getOrCreateCustomer st contact name).2.transactions = st.transactions)
    ∧ ((getOrCreateCustomer st contact name).2.menuItems = st.menuItems)
    ∧ ((getOrCreateCustomer st contact name).2.branches = st.branches)
    ∧ ((getOrCreateCustomer st contact name).2.nextSaleId = st.nextSaleId) := by
  unfold getOrCreateCustomer
  cases st.customers.find? (fun c => c.contact = contact) <;> simp

/-- When a customer with the requested contact already exists, the lookup
returns it and the store is completely untouched. -/
theorem getOrCreateCustomer_found (st : St) (contact name : String)
    (h : (st.customers.find? (fun c => c.contact = contact)).isSome) :
    (getOrCreateCustomer st contact name).2 = st := by
  unfold getOrCreateCustomer
  cases hf : st.customers.find? (fun c => c.contact = contact) with
  | none => rw [hf] at h; simp at h
  | some c => simp

/-! ### C4 — the stock ledger deduction contract -/

/-- C4: `deduct(inventoryItem, quantity)` fails with InvalidQuantity exactly
when the quantity is non-positive, fails with InsufficientStock exactly when
the quantity exceeds current stock, and otherwise commits the decrement
`newQuantity = previousQuantity - quantity` (never negative) together with
exactly one appended audit record carrying the previous and new quantities —
the `Except` result makes the decrement and the append one atomic unit. -/
theorem deduct_quantity_spec (inv : List InventoryItem) (txns : List InvTxn)
    (itemId : ℕ) (item : InventoryItem) (q : ℚ) (ttype : String)
    (saleId : Option ℕ) (notes : String)
    (hfind : findInv inv itemId = some item) (hstock : 0 ≤ item.stock) :
    (stockLedgerDeduct inv txns itemId q ttype saleId notes = .error .invalidQuantity ↔ q ≤ 0)
    ∧ (stockLedgerDeduct inv txns itemId q ttype saleId notes
         = .error (.insufficientStock item.name item.stock q) ↔ item.stock < q)
    ∧ (0 < q → q ≤ item.stock →
        stockLedgerDeduct inv txns itemId q ttype saleId notes
          = .ok (updateInv inv { item with stock := item.stock - q },
                 txns ++ [{ inventoryItemId := item.id, ttype := ttype, quantity := q
                            unit := item.unit, saleId := saleId
                            previousQuantity := some item.stock
                            newQuantity := some (item.stock - q), notes := notes }])
        ∧ 0 ≤ item.stock - q) := by
  unfold stockLedgerDeduct
  rw [hfind]
  unfold InventoryItem.deduct_quantity
  by_cases h1 : q ≤ 0
  · have h2 : ¬ item.stock < q := by linarith
    simp [h1, h2]
  · by_cases h2 : item.stock < q
    · simp [h1, h2]
    · constructor
      · simp [h1, h2]
      · constructor
        · simp [h1, h2]
        · intro _ h4
          refine ⟨by simp [h1, h2], by linarith⟩

/-- Witness for C4 at a concrete store: item 7 holds 5 kg of flour and 2 kg
are deducted. -/
theorem deduct_quantity_spec_witness :
    (stockLedgerDeduct [⟨7, "Flour", 5, "kg"⟩] [] 7 2 "sale" none "" = .error .invalidQuantity ↔ (2 : ℚ) ≤ 0)
    ∧ (stockLedgerDeduct [⟨7, "Flour", 5, "kg"⟩] [] 7 2 "sale" none ""
         = .error (.insufficientStock "Flour" 5 2) ↔ (5 : ℚ) < 2)
    ∧ ((0 : ℚ) < 2 → (2 : ℚ) ≤ 5 →
        stockLedgerDeduct [⟨7, "Flour", 5, "kg"⟩] [] 7 2 "sale" none ""
          = .ok (updateInv [⟨7, "Flour", 5, "kg"⟩] ⟨7, "Flour", 5 - 2, "kg"⟩,
                 [] ++ [⟨7, "sale", 2, "kg", none, some 5, some (5 - 2), ""⟩])
        ∧ (0 : ℚ) ≤ 5 - 2) :=
  deduct_quantity_spec [⟨7, "Flour", 5, "kg"⟩] [] 7 ⟨7, "Flour", 5, "kg"⟩ 2 "sale" none ""
    (by decide) (by norm_num)

/-! ### C5 — optional ingredients -/

/-- Membership in the shortage list produced by the availability loop. -/
theorem availGo_mem (q : ℤ) (inv : List InventoryItem) (e : Shortage) :
    ∀ l : List RecipeIngredient,
      e ∈ availGo q inv l ↔ ∃ ing ∈ l, shortEntry q inv ing = some e := by
  intro l
  induction l with
  | nil => simp [availGo]
  | cons ing rest ih =>
    unfold availGo
    cases h : shortEntry q inv ing with
    | none =>
      simp only [ih, List.mem_cons]
      constructor
      · rintro ⟨i, hi, he⟩
        exact ⟨i, Or.inr hi, he⟩
      · rintro ⟨i, hi | hi, he⟩
        · rw [hi] at he; rw [h] at he; cases he
        · exact ⟨i, hi, he⟩
    | some e2 =>
      simp only [List.mem_cons, ih]
      constructor
      · rintro (he | ⟨i, hi, hei⟩)
        · exact ⟨ing, Or.inl rfl, by rw [h, he]⟩
        · exact ⟨i, Or.inr hi, hei⟩
      · rintro ⟨i, hi | hi, hei⟩
        · left
          rw [hi] at hei; rw [h] at hei
          exact (Option.some.injEq _ _ ▸ hei).symm
        · right; exact ⟨i, hi, hei⟩

/-- The ingredient deduction loop never touches an optional ingredient:
filtering them away first changes nothing. -/
theorem deductIngredients_skips_optional (saleQty : ℤ) (saleId : ℕ) (note : String) :
    ∀ (ings : List RecipeIngredient) (inv : List InventoryItem)
      (txns : List InvTxn) (deds : List Deduction),
      deductIngredients saleQty saleId note ings inv txns deds
        = deductIngredients saleQty saleId note
            (ings.filter (fun i => !i.isOptional)) inv txns deds := by
  intro ings
  induction ings with
  | nil => intro inv txns deds; rfl
  | cons ing rest ih =>
    intro inv txns deds
    by_cases hopt : ing.isOptional
    · simp only [deductIngredients, hopt, if_true, List.filter_cons, Bool.not_true]
      simpa using ih inv txns deds
    · simp only [List.filter_cons]
      rw [eq_false_of_ne_true (by simpa using hopt : ¬ ing.isOptional = true)]
      simp only [deductIngredients, hopt, if_false, Bool.not_false, if_true]
      cases stockLedgerDeduct inv txns ing.inventoryItemId
          (ing.quantity * (saleQty : ℚ)) "sale" (some saleId) note with
      | error e => rfl
      | ok p => exact ih p.1 p.2 _

/-- C5 amended: optional ingredients are indeed never deducted (the
deduction loop is blind to them), but `check_availability` compares every
ingredient of the recipe against stock, the optional ones included, so an
optional shortage is emitted and blocks availability. -/
theorem optional_checked_but_not_deducted (r : Recipe) (q : ℤ)
    (inv : List InventoryItem) (saleQty : ℤ) (saleId : ℕ) (note : String)
    (ings : List RecipeIngredient) (invd : List InventoryItem)
    (txns : List InvTxn) (deds : List Deduction) :
    (∀ e, e ∈ (r.check_availability q inv).2 ↔ ∃ ing ∈ r.ingredients, shortEntry q inv ing = some e)
    ∧ ((r.check_availability q inv).1 = true ↔ (r.check_availability q inv).2 = [])
    ∧ deductIngredients saleQty saleId note ings invd txns deds
        = deductIngredients saleQty saleId note
            (ings.filter (fun i => !i.isOptional)) invd txns deds := by
  refine ⟨fun e => ?_, ?_, deductIngredients_skips_optional saleQty saleId note ings invd txns deds⟩
  · unfold Recipe.check_availability
    simpa using availGo_mem q inv e r.ingredients
  · unfold Recipe.check_availability
    simp [List.isEmpty_iff]

/-- A recipe whose single ingredient is optional and out of stock. -/
def optRecipe : Recipe :=
  { isActive := true
    ingredients := [{ inventoryItemId := 1, quantity := 1, unit := "kg", isOptional := true }] }

/-- The inventory for the optional-ingredient counterexample: truffle is out
of stock. -/
def optInv : List InventoryItem := [{ id := 1, name := "Truffle", stock := 0, unit := "kg" }]

/-- C5 counterexample: an `is_optional` ingredient IS compared against stock
by `check_availability` — its shortage is emitted and availability is
blocked, contradicting the claim that optional ingredients are never checked
and never emit a ShortageEntry. -/
theorem c5_counterexample :
    optRecipe.check_availability 1 optInv
      = (false, [{ item := "Truffle", required := 1, available := 0, shortage := 1, unit := "kg" }]) := by
  norm_num [Recipe.check_availability, availGo, shortEntry, findInv, optRecipe, optInv, List.find?]

/-! ### C6 — decimal-exact sale totals -/

/-- The totals loop reproduces the per-line and sale-level arithmetic of
views.py lines 1087-1107 exactly. -/
theorem computeTotalsRestr_spec (menu : List MenuItem) (rid : ℕ) (rate : ℚ) :
    ∀ (items : List LineReq) (lines : List SaleLine) (sub tax : ℚ),
      computeTotalsRestr menu rid rate items = .ok (lines, sub, tax) →
      sub = (lines.map (fun l => l.unitPrice * (l.quantity : ℚ))).sum
      ∧ tax = (lines.map (fun l => l.taxAmount)).sum
      ∧ ∀ l ∈ lines, l.taxAmount = l.unitPrice * (l.quantity : ℚ) * rate
          ∧ l.total = l.unitPrice * (l.quantity : ℚ) + l.taxAmount := by
  intro items
  induction items with
  | nil =>
    intro lines sub tax h
    unfold computeTotalsRestr at h
    simp only [Except.ok.injEq, Prod.mk.injEq] at h
    obtain ⟨h1, h2, h3⟩ := h
    subst h1; subst h2; subst h3
    simp
  | cons l rest ih =>
    intro lines sub tax h
    unfold computeTotalsRestr at h
    cases hf : findMenuOfRestaurant menu l.menuItemId rid with
    | none => rw [hf] at h; cases h
    | some mi =>
      rw [hf] at h
      cases hr : computeTotalsRestr menu rid rate rest with
      | error e => rw [hr] at h; cases h
      | ok t =>
        obtain ⟨ls, s, tx⟩ := t
        rw [hr] at h
        simp only [Except.ok.injEq, Prod.mk.injEq] at h
        obtain ⟨h1, h2, h3⟩ := h
        obtain ⟨hsum, htax, hall⟩ := ih ls s tx hr
        subst h1; subst h2; subst h3
        refine ⟨?_, ?_, ?_⟩
        · simp [hsum]
        · simp [htax]
        · intro line hline
          rcases List.mem_cons.mp hline with hl | hl
          · subst hl
            constructor
            · simp
            · simp
          · exact hall line hl

/-- Whenever the tail of `create_sale` succeeds, the persisted sale carries
exactly the recomputed totals: per-line tax `lineSubtotal * rate`, subtotal
and tax as the sums, and `total = subtotal + tax - discount` without
clamping. -/
theorem createSaleFinish_created (req : CreateSaleReq) (st st1 : St) (branch : Branch)
    (res : CreateSaleRes) (st2 : St)
    (h : createSaleFinish req st st1 branch = (res, st2))
    (hc : res.isCreated = true) :
    ∃ sale : Sale,
      st2.sales = st1.sales ++ [sale]
      ∧ sale.discountAmount = req.discountAmount
      ∧ sale.total = sale.subtotal + sale.taxAmount - sale.discountAmount
      ∧ sale.subtotal = (sale.lines.map (fun l => l.unitPrice * (l.quantity : ℚ))).sum
      ∧ sale.taxAmount = (sale.lines.map (fun l => l.taxAmount)).sum
      ∧ (∀ l ∈ sale.lines,
          l.taxAmount = l.unitPrice * (l.quantity : ℚ) * (branch.taxRate / 100)
          ∧ l.total = l.unitPrice * (l.quantity : ℚ) + l.taxAmount) := by
  unfold createSaleFinish at h
  split at h
  next e heq =>
    cases h
    simp [CreateSaleRes.isCreated] at hc
  next lines sub tax heq =>
    split at h
    next hdup =>
      cases h
      simp [CreateSaleRes.isCreated] at hc
    next hdup =>
      dsimp only at h
      split at h
      next msg heq2 =>
        cases h
        simp [CreateSaleRes.isCreated] at hc
      next inv2 txns2 deds2 heq2 =>
        cases h
        obtain ⟨hsum, htax, hall⟩ := computeTotalsRestr_spec st1.menuItems branch.restaurantId
          (branch.taxRate / 100) req.items lines sub tax heq
        exact ⟨_, rfl, rfl, rfl, hsum, htax, hall⟩

/-- C6: every sale persisted by `create_sale` satisfies, in exact decimal
(rational) arithmetic: per line `tax = (unitPrice * quantity) * (taxRate/100)`
and `lineTotal = lineSubtotal + lineTax`; `subtotal = Σ unitPrice * quantity`;
`taxAmount = Σ lineTax`; and `total = subtotal + taxAmount - discount`, with
no clamping when the discount exceeds subtotal plus tax. -/
theorem create_sale_totals (req : CreateSaleReq) (st : St) (bid : ℕ) (branch : Branch)
    (res : CreateSaleRes) (st2 : St)
    (hb : req.branchId = some bid)
    (hbr : st.branches.find? (fun b => b.id = bid) = some branch)
    (h : create_sale req st = (res, st2))
    (hc : res.isCreated = true) :
    ∃ sale : Sale,
      st2.sales = st.sales ++ [sale]
      ∧ sale.discountAmount = req.discountAmount
      ∧ sale.total = sale.subtotal + sale.taxAmount - sale.discountAmount
      ∧ sale.subtotal = (sale.lines.map (fun l => l.unitPrice * (l.quantity : ℚ))).sum
      ∧ sale.taxAmount = (sale.lines.map (fun l => l.taxAmount)).sum
      ∧ (∀ l ∈ sale.lines,
          l.taxAmount = l.unitPrice * (l.quantity : ℚ) * (branch.taxRate / 100)
          ∧ l.total = l.unitPrice * (l.quantity : ℚ) + l.taxAmount) := by
  unfold create_sale at h
  by_cases hser : serializerOk req = false
  · rw [if_pos hser] at h
    cases h
    simp [CreateSaleRes.isCreated] at hc
  · rw [if_neg hser] at h
    rw [hb] at h
    dsimp only at h
    by_cases hacc : req.access = false
    · rw [if_pos hacc] at h
      cases h
      simp [CreateSaleRes.isCreated] at hc
    · rw [if_neg hacc] at h
      rw [hbr] at h
      dsimp only at h
      have hframe := (getOrCreateCustomer_frame st req.customerContact req.customerName).1
      by_cases hskip : req.skipInventoryCheck = true
      · rw [if_pos hskip] at h
        obtain ⟨sale, hs, hrest⟩ := createSaleFinish_created req st _ branch res st2 h hc
        exact ⟨sale, by rw [hs, hframe], hrest⟩
      · rw [if_neg hskip] at h
        split at h
        next heq =>
          cases h
          simp [CreateSaleRes.isCreated] at hc
        next nm missing heq =>
          cases h
          simp [CreateSaleRes.isCreated] at hc
        next u heq =>
          obtain ⟨sale, hs, hrest⟩ := createSaleFinish_created req st _ branch res st2 h hc
          exact ⟨sale, by rw [hs, hframe], hrest⟩

/-- The chicken-tikka fixture of the spec scenarios: half a kilogram of
chicken per serving, two kilograms in stock. -/
def wMenu : List MenuItem :=
  [{ id := 1, restaurantId := 1, name := "Tikka", price := 100
     recipe := some { isActive := true
                      ingredients := [{ inventoryItemId := 1, quantity := 1/2
                                        unit := "kg", isOptional := false }] } }]

/-- Inventory for the fixture: two kilograms of chicken. -/
def wInv : List InventoryItem := [{ id := 1, name := "Chicken", stock := 2, unit := "kg" }]

/-- The fixture branch with a 17 percent tax rate. -/
def wBranch : Branch := { id := 1, restaurantId := 1, taxRate := 17 }

/-- The fixture store before any sale. -/
def wSt : St :=
  { branches := [wBranch], menuItems := wMenu, inventory := wInv
    customers := [], sales := [], transactions := [], nextSaleId := 1 }

/-- A valid create-sale request: two servings, ten units of discount, an
offline identifier, inventory check not skipped. -/
def wReq : CreateSaleReq :=
  { branchId := some 1, access := true, customerName := "Ali"
    customerContact := "0300", paymentMethod := "cash", discountAmount := 10
    items := [{ menuItemId := 1, quantity := 2 }]
    offlineSaleId := some "OFF1", skipInventoryCheck := false }

/-- The store after the fixture sale commits: one sale, one kilogram of
chicken deducted, one audit record, one new customer. -/
def wStAfter : St :=
  { branches := [wBranch], menuItems := wMenu
    inventory := [{ id := 1, name := "Chicken", stock := 1, unit := "kg" }]
    customers := [{ name := "Ali", contact := "0300" }]
    sales := [{ id := 1, branchId := 1, customerContact := "0300", paymentMethod := "cash"
                subtotal := 200, taxAmount := 34, discountAmount := 10, total := 224
                offlineSaleId := some "OFF1"
                lines := [{ menuItemId := 1, quantity := 2, unitPrice := 100
                            taxAmount := 34, total := 234 }] }]
    transactions := [{ inventoryItemId := 1, ttype := "sale", quantity := 1, unit := "kg"
                       saleId := some 1, previousQuantity := some 2, newQuantity := some 1
                       notes := "Tikka" }]
    nextSaleId := 2 }

/-- Concrete end-to-end evaluation of the fixture sale: totals 200 + 34 - 10,
one kilogram deducted, audit record appended. -/
theorem wRun :
    create_sale wReq wSt
      = (.created 1 200 34 10 224 1 [{ item := "Chicken", quantity := 1, unit := "kg" }],
         wStAfter) := by
  norm_num [create_sale, createSaleFinish, serializerOk, getOrCreateCustomer, preCheck,
    computeTotalsRestr, findMenuOfRestaurant, findMenu, findInv, dupOffline,
    Sale.process_inventory_deductions, pidGo, pidLine, deductIngredients,
    stockLedgerDeduct, InventoryItem.deduct_quantity, Recipe.check_availability,
    availGo, shortEntry, updateInv, List.find?,
    wReq, wSt, wMenu, wInv, wBranch, wStAfter]

/-- Witness for C6 at the fixture sale. -/
theorem create_sale_totals_witness :
    ∃ sale : Sale,
      (create_sale wReq wSt).2.sales = wSt.sales ++ [sale]
      ∧ sale.discountAmount = wReq.discountAmount
      ∧ sale.total = sale.subtotal + sale.taxAmount - sale.discountAmount
      ∧ sale.subtotal = (sale.lines.map (fun l => l.unitPrice * (l.quantity : ℚ))).sum
      ∧ sale.taxAmount = (sale.lines.map (fun l => l.taxAmount)).sum
      ∧ (∀ l ∈ sale.lines,
          l.taxAmount = l.unitPrice * (l.quantity : ℚ) * (wBranch.taxRate / 100)
          ∧ l.total = l.unitPrice * (l.quantity : ℚ) + l.taxAmount) :=
  create_sale_totals wReq wSt 1 wBranch (create_sale wReq wSt).1 (create_sale wReq wSt).2
    rfl (by norm_num [wSt, wBranch, List.find?]) rfl (by rw [wRun]; rfl)

/-! ### C1 — the availability pre-check abort -/

/-- C1 amended: when the availability pre-check fails, `create_sale` returns
an InsufficientInventory error naming the FIRST failing basket line together
with all of that line's shortages, and persists no Sale, no line item, no
deduction and no audit record — but the store it commits is the one after
the customer resolve-or-create, so a newly created Customer row survives the
abort. -/
theorem create_sale_precheck_abort (req : CreateSaleReq) (st : St) (bid : ℕ)
    (branch : Branch) (nm : String) (missing : List Shortage)
    (hser : ¬ serializerOk req = false)
    (hb : req.branchId = some bid)
    (hacc : ¬ req.access = false)
    (hbr : st.branches.find? (fun b => b.id = bid) = some branch)
    (hskip : ¬ req.skipInventoryCheck = true)
    (hpre : preCheck st.menuItems st.inventory req.items = .error (.shortage nm missing)) :
    create_sale req st
      = (.insufficientInventory nm missing,
         (getOrCreateCustomer st req.customerContact req.customerName).2)
    ∧ ((getOrCreateCustomer st req.customerContact req.customerName).2).sales = st.sales
    ∧ ((getOrCreateCustomer st req.customerContact req.customerName).2).inventory = st.inventory
    ∧ ((getOrCreateCustomer st req.customerContact req.customerName).2).transactions
        = st.transactions := by
  obtain ⟨hsales, hinv, htx, hmenu, hbra, hnext⟩ :=
    getOrCreateCustomer_frame st req.customerContact req.customerName
  refine ⟨?_, hsales, hinv, htx⟩
  unfold create_sale
  rw [if_neg hser, hb]
  dsimp only
  rw [if_neg hacc, hbr]
  dsimp only
  rw [if_neg hskip, hmenu, hinv, hpre]

/-- Two failing basket lines for the C1 counterexample: both recipes are
short on stock. -/
def cMenu : List MenuItem :=
  [{ id := 1, restaurantId := 1, name := "Tikka", price := 100
     recipe := some { isActive := true
                      ingredients := [{ inventoryItemId := 1, quantity := 1
                                        unit := "kg", isOptional := false }] } },
   { id := 2, restaurantId := 1, name := "Steak", price := 200
     recipe := some { isActive := true
                      ingredients := [{ inventoryItemId := 2, quantity := 1
                                        unit := "kg", isOptional := false }] } }]

/-- Empty stock for both ingredients of the C1 counterexample. -/
def cInv : List InventoryItem :=
  [{ id := 1, name := "Chicken", stock := 0, unit := "kg" },
   { id := 2, name := "Beef", stock := 0, unit := "kg" }]

/-- Store for the C1 counterexample. -/
def cSt : St :=
  { branches := [wBranch], menuItems := cMenu, inventory := cInv
    customers := [], sales := [], transactions := [], nextSaleId := 1 }

/-- Request with two offending basket lines. -/
def cReq : CreateSaleReq :=
  { branchId := some 1, access := true, customerName := "Noor"
    customerContact := "0311", paymentMethod := "cash", discountAmount := 0
    items := [{ menuItemId := 1, quantity := 1 }, { menuItemId := 2, quantity := 1 }]
    offlineSaleId := none, skipInventoryCheck := false }

/-- C1 counterexample: with two offending basket lines the error payload
names only the first one (the Steak line and its Beef shortage are absent),
and the Customer row created before the pre-check is persisted even though
the sale is aborted — refuting both that the error enumerates every
offending line and that no write is persisted. -/
theorem c1_counterexample :
    (create_sale cReq cSt).1
      = .insufficientInventory "Tikka"
          [{ item := "Chicken", required := 1, available := 0, shortage := 1, unit := "kg" }]
    ∧ (create_sale cReq cSt).2.customers = [{ name := "Noor", contact := "0311" }] := by
  constructor <;>
    norm_num [create_sale, createSaleFinish, serializerOk, getOrCreateCustomer, preCheck,
      computeTotalsRestr, findMenuOfRestaurant, findMenu, findInv, dupOffline,
      Recipe.check_availability, availGo, shortEntry, List.find?,
      cReq, cSt, cMenu, cInv, wBranch]

/-- Witness for C1 (amended) at the two-line fixture. -/
theorem create_sale_precheck_abort_witness :
    create_sale cReq cSt
      = (.insufficientInventory "Tikka"
           [{ item := "Chicken", required := 1, available := 0, shortage := 1, unit := "kg" }],
         (getOrCreateCustomer cSt cReq.customerContact cReq.customerName).2)
    ∧ ((getOrCreateCustomer cSt cReq.customerContact cReq.customerName).2).sales = cSt.sales
    ∧ ((getOrCreateCustomer cSt cReq.customerContact cReq.customerName).2).inventory = cSt.inventory
    ∧ ((getOrCreateCustomer cSt cReq.customerContact cReq.customerName).2).transactions
        = cSt.transactions :=
  create_sale_precheck_abort cReq cSt 1 wBranch "Tikka"
    [{ item := "Chicken", required := 1, available := 0, shortage := 1, unit := "kg" }]
    (by decide) rfl (by decide)
    (by norm_num [cSt, wBranch, List.find?]) (by decide)
    (by norm_num [preCheck, findMenu, Recipe.check_availability, availGo, shortEntry,
      findInv, List.find?, cReq, cSt, cMenu, cInv])

/-! ### Path enumeration for create_sale -/

/-- Every outcome of the tail of `create_sale`: either an error with the
whole request rolled back to `st`, or the 201 with no duplicate offline id,
untouched customers, and exactly one appended sale carrying the request's
contact and offline id. -/
theorem createSaleFinish_state_cases (req : CreateSaleReq) (st st1 : St) (branch : Branch) :
    ((createSaleFinish req st st1 branch).2 = st
      ∧ (createSaleFinish req st st1 branch).1.isCreated = false)
    ∨ ((createSaleFinish req st st1 branch).1.isCreated = true
       ∧ dupOffline st1.sales req.offlineSaleId = false
       ∧ (createSaleFinish req st st1 branch).2.customers = st1.customers
       ∧ ∃ sale : Sale, (createSaleFinish req st st1 branch).2.sales = st1.sales ++ [sale]
           ∧ sale.customerContact = req.customerContact
           ∧ sale.offlineSaleId = req.offlineSaleId) := by
  unfold createSaleFinish
  split
  next e heq => exact Or.inl ⟨rfl, rfl⟩
  next lines sub tax heq =>
    by_cases hdup : dupOffline st1.sales req.offlineSaleId = true
    · rw [if_pos hdup]
      exact Or.inl ⟨rfl, rfl⟩
    · rw [if_neg hdup]
      dsimp only
      split
      next msg heq2 => exact Or.inl ⟨rfl, rfl⟩
      next inv2 txns2 deds2 heq2 =>
        exact Or.inr ⟨rfl, by simpa using hdup, rfl, ⟨_, rfl, rfl, rfl⟩⟩

/-- Every outcome of `create_sale`: rollback to `st`, commit of only the
customer resolve-or-create (the pre-check early return), or the full 201
with no duplicate offline id and exactly one appended sale. -/
theorem create_sale_state_cases (req : CreateSaleReq) (st : St) :
    ((create_sale req st).2 = st ∧ (create_sale req st).1.isCreated = false)
    ∨ ((create_sale req st).2 = (getOrCreateCustomer st req.customerContact req.customerName).2
       ∧ (create_sale req st).1.isCreated = false)
    ∨ ((create_sale req st).1.isCreated = true
       ∧ dupOffline st.sales req.offlineSaleId = false
       ∧ (create_sale req st).2.customers
           = ((getOrCreateCustomer st req.customerContact req.customerName).2).customers
       ∧ ∃ sale : Sale, (create_sale req st).2.sales = st.sales ++ [sale]
           ∧ sale.customerContact = req.customerContact
           ∧ sale.offlineSaleId = req.offlineSaleId) := by
  obtain ⟨hsales, hinv, htx, hmenu, hbra, hnext⟩ :=
    getOrCreateCustomer_frame st req.customerContact req.customerName
  have finishCase : ∀ branch : Branch,
      ((createSaleFinish req st (getOrCreateCustomer st req.customerContact req.customerName).2 branch).2 = st
        ∧ (createSaleFinish req st (getOrCreateCustomer st req.customerContact req.customerName).2 branch).1.isCreated = false)
      ∨ ((createSaleFinish req st (getOrCreateCustomer st req.customerContact req.customerName).2 branch).1.isCreated = true
         ∧ dupOffline st.sales req.offlineSaleId = false
         ∧ (createSaleFinish req st (getOrCreateCustomer st req.customerContact req.customerName).2 branch).2.customers
             = ((getOrCreateCustomer st req.customerContact req.customerName).2).customers
         ∧ ∃ sale : Sale,
             (createSaleFinish req st (getOrCreateCustomer st req.customerContact req.customerName).2 branch).2.sales
               = st.sales ++ [sale]
             ∧ sale.customerContact = req.customerContact
             ∧ sale.offlineSaleId = req.offlineSaleId) := by
    intro branch
    rcases createSaleFinish_state_cases req st
        (getOrCreateCustomer st req.customerContact req.customerName).2 branch with
      ⟨h1, h2⟩ | ⟨h1, h2, h3, sale, h4, h5, h6⟩
    · exact Or.inl ⟨h1, h2⟩
    · rw [hsales] at h2 h4
      exact Or.inr ⟨h1, h2, h3, sale, h4, h5, h6⟩
  unfold create_sale
  by_cases hser : serializerOk req = false
  · rw [if_pos hser]
    exact Or.inl ⟨rfl, rfl⟩
  · rw [if_neg hser]
    cases hb : req.branchId with
    | none => exact Or.inl ⟨rfl, rfl⟩
    | some bid =>
      dsimp only
      by_cases hacc : req.access = false
      · rw [if_pos hacc]
        exact Or.inl ⟨rfl, rfl⟩
      · rw [if_neg hacc]
        cases hbr : st.branches.find? (fun b => b.id = bid) with
        | none => exact Or.inl ⟨rfl, rfl⟩
        | some branch =>
          dsimp only
          by_cases hskip : req.skipInventoryCheck = true
          · rw [if_pos hskip]
            rcases finishCase branch with h | h
            · exact Or.inl h
            · exact Or.inr (Or.inr h)
          · rw [if_neg hskip]
            split
            next heq => exact Or.inl ⟨rfl, rfl⟩
            next nm missing heq => exact Or.inr (Or.inl ⟨rfl, rfl⟩)
            next u heq =>
              rcases finishCase branch with h | h
              · exact Or.inl h
              · exact Or.inr (Or.inr h)

/-! ### C10 — existing customers are reused, never renamed -/

/-- C10: when a customer with the request's contact already exists,
`create_sale` leaves the customers table exactly as it was (so the stored
name survives even when the request supplies a different one), and a
successful sale is attached to that contact. -/
theorem create_sale_existing_customer (req : CreateSaleReq) (st : St) (c : Customer)
    (hmem : c ∈ st.customers) (hcontact : c.contact = req.customerContact) :
    (create_sale req st).2.customers = st.customers
    ∧ ((create_sale req st).1.isCreated = true →
        ∃ sale : Sale, (create_sale req st).2.sales = st.sales ++ [sale]
          ∧ sale.customerContact = req.customerContact) := by
  have hfound : (st.customers.find? (fun x => x.contact = req.customerContact)).isSome := by
    rw [List.find?_isSome]
    exact ⟨c, hmem, by simp [hcontact]⟩
  have hst1 : (getOrCreateCustomer st req.customerContact req.customerName).2 = st :=
    getOrCreateCustomer_found st req.customerContact req.customerName hfound
  rcases create_sale_state_cases req st with
    ⟨h1, h2⟩ | ⟨h1, h2⟩ | ⟨h1, h2, h3, sale, h4, h5, h6⟩
  · rw [h1]
    exact ⟨rfl, fun hcr => by rw [h2] at hcr; cases hcr⟩
  · rw [h1, hst1]
    exact ⟨rfl, fun hcr => by rw [h2] at hcr; cases hcr⟩
  · rw [h3, hst1]
    exact ⟨rfl, fun _ => ⟨sale, h4, h5⟩⟩

/-- Store with a pre-existing customer under the fixture contact but a
different stored name. -/
def tSt : St := { wSt with customers := [{ name := "Walkin", contact := "0300" }] }

/-- Witness for C10: the fixture sale against a store whose customer
"Walkin" already owns contact 0300, while the request supplies the name
"Ali"; the stored customer list survives unchanged. -/
theorem create_sale_existing_customer_witness :
    (create_sale wReq tSt).2.customers = tSt.customers
    ∧ ((create_sale wReq tSt).1.isCreated = true →
        ∃ sale : Sale, (create_sale wReq tSt).2.sales = tSt.sales ++ [sale]
          ∧ sale.customerContact = wReq.customerContact) :=
  create_sale_existing_customer wReq tSt ⟨"Walkin", "0300"⟩ (by simp [tSt, wSt]) rfl

/-! ### C2 — duplicate offline sale ids -/

/-- C2 amended: `create_sale` has no idempotent-return branch; when a sale
with the supplied offline id already exists, the insert hits the unique
constraint, the whole request rolls back, and the caller receives an error
rather than the existing Sale — so no second Sale, deduction or audit record
is ever persisted (exactly one sale survives two submissions), but the
existing Sale is never returned. -/
theorem create_sale_duplicate_offline (req : CreateSaleReq) (st : St) (x : String)
    (hoff : req.offlineSaleId = some x)
    (hex : ∃ s ∈ st.sales, s.offlineSaleId = some x) :
    (create_sale req st).1.isCreated = false
    ∧ (create_sale req st).2.sales = st.sales
    ∧ (create_sale req st).2.inventory = st.inventory
    ∧ (create_sale req st).2.transactions = st.transactions := by
  obtain ⟨s, hs, hsx⟩ := hex
  have hdup : dupOffline st.sales req.offlineSaleId = true := by
    rw [hoff]
    unfold dupOffline
    rw [List.any_eq_true]
    exact ⟨s, hs, by simp [hsx]⟩
  obtain ⟨hsales, hinv, htx, hmenu, hbra, hnext⟩ :=
    getOrCreateCustomer_frame st req.customerContact req.customerName
  rcases create_sale_state_cases req st with
    ⟨h1, h2⟩ | ⟨h1, h2⟩ | ⟨h1, h2, h3, sale, h4, h5, h6⟩
  · rw [h1]
    exact ⟨h2, rfl, rfl, rfl⟩
  · rw [h1]
    exact ⟨h2, hsales, hinv, htx⟩
  · rw [h2] at hdup
    cases hdup

/-- Menu for the duplicate-offline-id fixtures: a recipe-free item, so the
request reaches the sale insert. -/
def dMenu : List MenuItem :=
  [{ id := 1, restaurantId := 1, name := "Cola", price := 50, recipe := none }]

/-- The already-synced sale occupying offline id X. -/
def dSale : Sale :=
  { id := 1, branchId := 1, customerContact := "0300", paymentMethod := "cash"
    subtotal := 50, taxAmount := 17/2, discountAmount := 0, total := 50 + 17/2
    offlineSaleId := some "X", lines := [] }

/-- Store already holding the offline-id-X sale. -/
def dSt : St :=
  { branches := [wBranch], menuItems := dMenu, inventory := []
    customers := [{ name := "Ali", contact := "0300" }]
    sales := [dSale], transactions := [], nextSaleId := 2 }

/-- A retry of the same offline sale. -/
def dReq : CreateSaleReq :=
  { branchId := some 1, access := true, customerName := "Ali"
    customerContact := "0300", paymentMethod := "cash", discountAmount := 0
    items := [{ menuItemId := 1, quantity := 1 }]
    offlineSaleId := some "X", skipInventoryCheck := false }

/-- C2 counterexample: resubmitting offline id X yields a 400 uniqueness
error with the store untouched — the code does NOT return the existing Sale
unchanged as the claim states. -/
theorem c2_counterexample :
    (create_sale dReq dSt).1 = .badRequest "UNIQUE constraint failed: offline sale id"
    ∧ (create_sale dReq dSt).2 = dSt := by
  constructor <;>
    norm_num [create_sale, createSaleFinish, serializerOk, getOrCreateCustomer, preCheck,
      computeTotalsRestr, findMenuOfRestaurant, findMenu, findInv, dupOffline,
      List.find?, List.any, dReq, dSt, dMenu, dSale, wBranch]

/-- Witness for C2 (amended) at the duplicate-offline-id fixture. -/
theorem create_sale_duplicate_offline_witness :
    (create_sale dReq dSt).1.isCreated = false
    ∧ (create_sale dReq dSt).2.sales = dSt.sales
    ∧ (create_sale dReq dSt).2.inventory = dSt.inventory
    ∧ (create_sale dReq dSt).2.transactions = dSt.transactions :=
  create_sale_duplicate_offline dReq dSt "X" rfl ⟨dSale, by simp [dSt], rfl⟩

/-! ### C7 — request validation -/

/-- A basket line whose menu item does not resolve within the restaurant
makes the totals loop raise `DoesNotExist`. -/
theorem computeTotalsRestr_error_of_bad_line (menu : List MenuItem) (rid : ℕ) (rate : ℚ) :
    ∀ items : List LineReq,
      (∃ l ∈ items, findMenuOfRestaurant menu l.menuItemId rid = none) →
      computeTotalsRestr menu rid rate items = .error () := by
  intro items
  induction items with
  | nil => rintro ⟨l, hl, hbad⟩; cases hl
  | cons a rest ih =>
    rintro ⟨l, hl, hbad⟩
    unfold computeTotalsRestr
    rcases List.mem_cons.mp hl with h | h
    · rw [h] at hbad
      rw [hbad]
    · cases hf : findMenuOfRestaurant menu a.menuItemId rid with
      | none => rfl
      | some mi =>
        rw [ih ⟨l, h, hbad⟩]

/-- A menu item that triggers no inventory work: it has no recipe, or only
an inactive one (the `hasattr and is_active` guard of models.py 205 and
views.py 1077). -/
def noDeduction (mi : MenuItem) : Prop :=
  ∀ r : Recipe, mi.recipe = some r → r.isActive = false

/-- The availability pre-check passes any basket whose lines all resolve to
menu items without an active recipe, whatever their quantities. -/
theorem preCheck_ok_noRecipe (menu : List MenuItem) (inv : List InventoryItem) :
    ∀ items : List LineReq,
      (∀ l ∈ items, ∃ mi : MenuItem, findMenu menu l.menuItemId = some mi ∧ noDeduction mi) →
      preCheck menu inv items = .ok () := by
  intro items
  induction items with
  | nil => intro h; rfl
  | cons a rest ih =>
    intro h
    obtain ⟨mi, hfind, hnd⟩ := h a (List.mem_cons_self a rest)
    have htail := ih (fun l hl => h l (List.mem_cons_of_mem a hl))
    unfold preCheck
    rw [hfind]
    dsimp only
    cases hr : mi.recipe with
    | none => exact htail
    | some r =>
      dsimp only
      rw [if_pos (hnd r hr)]
      exact htail

/-- The totals loop succeeds on any basket whose lines all resolve within
the restaurant — quantities, positive or not, are copied verbatim into the
line snapshots. -/
theorem computeTotalsRestr_ok (menu : List MenuItem) (rid : ℕ) (rate : ℚ) :
    ∀ items : List LineReq,
      (∀ l ∈ items, (findMenuOfRestaurant menu l.menuItemId rid).isSome) →
      ∃ (lines : List SaleLine) (sub tax : ℚ),
        computeTotalsRestr menu rid rate items = .ok (lines, sub, tax)
        ∧ lines.map (fun l => (l.menuItemId, l.quantity))
            = items.map (fun i => (i.menuItemId, i.quantity)) := by
  intro items
  induction items with
  | nil => intro h; exact ⟨[], 0, 0, rfl, rfl⟩
  | cons a rest ih =>
    intro h
    have ha := h a (List.mem_cons_self a rest)
    cases hf : findMenuOfRestaurant menu a.menuItemId rid with
    | none => rw [hf] at ha; simp at ha
    | some mi =>
      obtain ⟨ls, s, t, hok, hmap⟩ := ih (fun l hl => h l (List.mem_cons_of_mem a hl))
      refine ⟨{ menuItemId := a.menuItemId, quantity := a.quantity, unitPrice := mi.price
                taxAmount := mi.price * (a.quantity : ℚ) * rate
                total := mi.price * (a.quantity : ℚ) + mi.price * (a.quantity : ℚ) * rate } :: ls,
              mi.price * (a.quantity : ℚ) + s, mi.price * (a.quantity : ℚ) * rate + t, ?_, ?_⟩
      · unfold computeTotalsRestr
        rw [hf, hok]
      · simp [hmap]

/-- The deduction loop is a no-op on sale lines whose menu items carry no
active recipe. -/
theorem pidGo_noRecipe (menu : List MenuItem) (saleId : ℕ) :
    ∀ (lines : List SaleLine) (inv : List InventoryItem) (txns : List InvTxn)
      (deds : List Deduction) (errs : List String),
      (∀ l ∈ lines, ∃ mi : MenuItem, findMenu menu l.menuItemId = some mi ∧ noDeduction mi) →
      pidGo menu saleId lines inv txns deds errs = .ok (inv, txns, deds, errs) := by
  intro lines
  induction lines with
  | nil => intro inv txns deds errs h; rfl
  | cons a rest ih =>
    intro inv txns deds errs h
    obtain ⟨mi, hfind, hnd⟩ := h a (List.mem_cons_self a rest)
    have htail := ih inv txns deds errs (fun l hl => h l (List.mem_cons_of_mem a hl))
    unfold pidGo pidLine
    rw [hfind]
    dsimp only
    cases hr : mi.recipe with
    | none => exact htail
    | some r =>
      dsimp only
      rw [if_pos (hnd r hr)]
      exact htail

/-- `process_inventory_deductions` succeeds without touching inventory or
the ledger when no line carries an active recipe. -/
theorem process_noRecipe (sale : Sale) (menu : List MenuItem) (inv : List InventoryItem)
    (h : ∀ l ∈ sale.lines, ∃ mi : MenuItem, findMenu menu l.menuItemId = some mi ∧ noDeduction mi) :
    sale.process_inventory_deductions menu inv = .ok (inv, [], []) := by
  unfold Sale.process_inventory_deductions
  rw [pidGo_noRecipe menu sale.id sale.lines inv [] [] [] h]
  rfl

/-- The tail of `create_sale` commits any basket whose lines resolved in the
totals loop and involve no active recipe: the 201 is returned and the
computed line snapshots — quantities included — are persisted verbatim. -/
theorem createSaleFinish_noRecipe (req : CreateSaleReq) (st st1 : St) (branch : Branch)
    (lines : List SaleLine) (sub tax : ℚ)
    (hok : computeTotalsRestr st1.menuItems branch.restaurantId (branch.taxRate / 100) req.items
        = .ok (lines, sub, tax))
    (hdup : dupOffline st1.sales req.offlineSaleId = false)
    (hnd : ∀ l ∈ lines, ∃ mi : MenuItem, findMenu st1.menuItems l.menuItemId = some mi ∧ noDeduction mi) :
    (createSaleFinish req st st1 branch).1.isCreated = true
    ∧ ∃ sale : Sale, (createSaleFinish req st st1 branch).2.sales = st1.sales ++ [sale]
        ∧ sale.lines = lines := by
  unfold createSaleFinish
  rw [hok]
  dsimp only
  rw [hdup]
  simp only [Bool.false_eq_true, if_false]
  rw [process_noRecipe _ _ _ hnd]
  exact ⟨rfl, ⟨_, rfl, rfl⟩⟩

/-- An empty basket sails through the tail of `create_sale`: zero totals and
a line-less sale are committed. -/
theorem createSaleFinish_empty (req : CreateSaleReq) (st st1 : St) (branch : Branch)
    (hitems : req.items = []) (hdup : dupOffline st1.sales req.offlineSaleId = false) :
    (createSaleFinish req st st1 branch).1
        = .created st1.nextSaleId 0 0 req.discountAmount (0 + 0 - req.discountAmount) 0 []
    ∧ ∃ sale : Sale, (createSaleFinish req st st1 branch).2.sales = st1.sales ++ [sale]
        ∧ sale.lines = [] := by
  unfold createSaleFinish
  rw [hitems]
  simp only [computeTotalsRestr, hdup, Bool.false_eq_true, if_false,
    Sale.process_inventory_deductions, pidGo, List.isEmpty_nil, if_true]
  exact ⟨rfl, ⟨_, rfl, rfl⟩⟩

/-- C7 amended: `create_sale` performs no basket-level validation of its
own.  The serializer never inspects the items list, so (a) an empty basket
is accepted and persists a sale with no lines and zero totals, and (c) lines
with arbitrary — also non-positive — quantities are accepted and persisted
verbatim whenever every line resolves to a menu item without an active
recipe; (d) a `menuItemId` that does not resolve to a MenuItem of the
branch's restaurant is rejected with a 400 and a full rollback whenever the
totals loop is reached: with the pre-check skipped, passing, or itself
failing on a globally unknown id. -/
theorem create_sale_no_basket_validation (req : CreateSaleReq) (st : St) (bid : ℕ)
    (branch : Branch)
    (hser : ¬ serializerOk req = false)
    (hb : req.branchId = some bid)
    (hacc : ¬ req.access = false)
    (hbr : st.branches.find? (fun b => b.id = bid) = some branch) :
    (req.items = [] → dupOffline st.sales req.offlineSaleId = false →
      (create_sale req st).1
          = .created st.nextSaleId 0 0 req.discountAmount (0 + 0 - req.discountAmount) 0 []
      ∧ ∃ sale : Sale, (create_sale req st).2.sales = st.sales ++ [sale] ∧ sale.lines = [])
    ∧ (∀ items2 : List LineReq, serializerOk { req with items := items2 } = serializerOk req)
    ∧ ((∀ l ∈ req.items, ∃ mi : MenuItem,
          findMenu st.menuItems l.menuItemId = some mi
          ∧ findMenuOfRestaurant st.menuItems l.menuItemId branch.restaurantId = some mi
          ∧ noDeduction mi) →
        dupOffline st.sales req.offlineSaleId = false →
        (create_sale req st).1.isCreated = true
        ∧ ∃ sale : Sale, (create_sale req st).2.sales = st.sales ++ [sale]
            ∧ sale.lines.map (fun l => (l.menuItemId, l.quantity))
                = req.items.map (fun i => (i.menuItemId, i.quantity)))
    ∧ ((req.skipInventoryCheck = true
          ∨ preCheck st.menuItems st.inventory req.items = .ok ()
          ∨ preCheck st.menuItems st.inventory req.items = .error .notFound) →
        (∃ l ∈ req.items, findMenuOfRestaurant st.menuItems l.menuItemId branch.restaurantId = none) →
        create_sale req st = (.badRequest "One or more menu items not found", st)) := by
  obtain ⟨hsales, hinv, htx, hmenu, hbra, hnext⟩ :=
    getOrCreateCustomer_frame st req.customerContact req.customerName
  refine ⟨?_, ?_, ?_, ?_⟩
  · intro hitems hdup
    have hdup1 : dupOffline
        ((getOrCreateCustomer st req.customerContact req.customerName).2).sales
        req.offlineSaleId = false := by rw [hsales]; exact hdup
    have hfin := createSaleFinish_empty req st
      (getOrCreateCustomer st req.customerContact req.customerName).2 branch hitems hdup1
    unfold create_sale
    rw [if_neg hser, hb]
    dsimp only
    rw [if_neg hacc, hbr]
    dsimp only
    by_cases hskip : req.skipInventoryCheck = true
    · rw [if_pos hskip]
      rw [hnext] at hfin
      obtain ⟨h1, sale, h2, h3⟩ := hfin
      exact ⟨h1, sale, by rw [h2, hsales], h3⟩
    · rw [if_neg hskip, hitems]
      simp only [preCheck]
      rw [hnext] at hfin
      obtain ⟨h1, sale, h2, h3⟩ := hfin
      exact ⟨h1, sale, by rw [h2, hsales], h3⟩
  · intro items2
    rfl
  · intro hres hdup
    have hdup1 : dupOffline
        ((getOrCreateCustomer st req.customerContact req.customerName).2).sales
        req.offlineSaleId = false := by rw [hsales]; exact hdup
    have hsome : ∀ l ∈ req.items,
        (findMenuOfRestaurant st.menuItems l.menuItemId branch.restaurantId).isSome := by
      intro l hl
      obtain ⟨mi, _, hfr, _⟩ := hres l hl
      rw [hfr]
      rfl
    obtain ⟨lines, sub, tax, hok, hmap⟩ :=
      computeTotalsRestr_ok st.menuItems branch.restaurantId (branch.taxRate / 100)
        req.items hsome
    have hok1 : computeTotalsRestr
        ((getOrCreateCustomer st req.customerContact req.customerName).2).menuItems
        branch.restaurantId (branch.taxRate / 100) req.items = .ok (lines, sub, tax) := by
      rw [hmenu]; exact hok
    have hnd1 : ∀ l ∈ lines, ∃ mi : MenuItem,
        findMenu ((getOrCreateCustomer st req.customerContact req.customerName).2).menuItems
          l.menuItemId = some mi ∧ noDeduction mi := by
      intro l hl
      have hm : (l.menuItemId, l.quantity)
          ∈ lines.map (fun l => (l.menuItemId, l.quantity)) := List.mem_map_of_mem _ hl
      rw [hmap] at hm
      obtain ⟨i, hi, hpair⟩ := List.mem_map.mp hm
      obtain ⟨mi, hfm, _, hnd⟩ := hres i hi
      have hid : i.menuItemId = l.menuItemId := congrArg Prod.fst hpair
      refine ⟨mi, ?_, hnd⟩
      rw [hmenu, ← hid]
      exact hfm
    have hfin := createSaleFinish_noRecipe req st
      (getOrCreateCustomer st req.customerContact req.customerName).2 branch
      lines sub tax hok1 hdup1 hnd1
    unfold create_sale
    rw [if_neg hser, hb]
    dsimp only
    rw [if_neg hacc, hbr]
    dsimp only
    by_cases hskip : req.skipInventoryCheck = true
    · rw [if_pos hskip]
      obtain ⟨h1, sale, h2, h3⟩ := hfin
      exact ⟨h1, sale, by rw [h2, hsales], by rw [h3]; exact hmap⟩
    · rw [if_neg hskip]
      have hpre : preCheck
          ((getOrCreateCustomer st req.customerContact req.customerName).2).menuItems
          ((getOrCreateCustomer st req.customerContact req.customerName).2).inventory
          req.items = .ok () := by
        rw [hmenu, hinv]
        refine preCheck_ok_noRecipe st.menuItems st.inventory req.items (fun l hl => ?_)
        obtain ⟨mi, hfm, _, hnd⟩ := hres l hl
        exact ⟨mi, hfm, hnd⟩
      rw [hpre]
      obtain ⟨h1, sale, h2, h3⟩ := hfin
      exact ⟨h1, sale, by rw [h2, hsales], by rw [h3]; exact hmap⟩
  · intro hpath hbad
    have herr : computeTotalsRestr
        ((getOrCreateCustomer st req.customerContact req.customerName).2).menuItems
        branch.restaurantId (branch.taxRate / 100) req.items = .error () := by
      rw [hmenu]
      exact computeTotalsRestr_error_of_bad_line st.menuItems branch.restaurantId
        (branch.taxRate / 100) req.items hbad
    unfold create_sale
    rw [if_neg hser, hb]
    dsimp only
    rw [if_neg hacc, hbr]
    dsimp only
    by_cases hskip : req.skipInventoryCheck = true
    · rw [if_pos hskip]
      unfold createSaleFinish
      rw [herr]
    · rw [if_neg hskip]
      rcases hpath with hsk | hpre | hpre
      · exact absurd hsk hskip
      · have hpre1 : preCheck
            ((getOrCreateCustomer st req.customerContact req.customerName).2).menuItems
            ((getOrCreateCustomer st req.customerContact req.customerName).2).inventory
            req.items = .ok () := by
          rw [hmenu, hinv]; exact hpre
        rw [hpre1]
        dsimp only
        unfold createSaleFinish
        rw [herr]
      · have hpre1 : preCheck
            ((getOrCreateCustomer st req.customerContact req.customerName).2).menuItems
            ((getOrCreateCustomer st req.customerContact req.customerName).2).inventory
            req.items = .error .notFound := by
          rw [hmenu, hinv]; exact hpre
        rw [hpre1]

/-- Store for the empty-basket counterexample. -/
def eSt : St :=
  { branches := [wBranch], menuItems := [], inventory := []
    customers := [], sales := [], transactions := [], nextSaleId := 1 }

/-- A request whose basket is empty and otherwise valid. -/
def eReq : CreateSaleReq :=
  { branchId := some 1, access := true, customerName := "Ali"
    customerContact := "0300", paymentMethod := "cash", discountAmount := 0
    items := [], offlineSaleId := none, skipInventoryCheck := false }

/-- Store for the non-positive-quantity counterexample: the recipe-free
Cola item. -/
def qSt : St :=
  { branches := [wBranch], menuItems := dMenu, inventory := []
    customers := [], sales := [], transactions := [], nextSaleId := 1 }

/-- A request whose single line carries quantity zero. -/
def qReq : CreateSaleReq :=
  { branchId := some 1, access := true, customerName := "Ali"
    customerContact := "0300", paymentMethod := "cash", discountAmount := 0
    items := [{ menuItemId := 1, quantity := 0 }]
    offlineSaleId := none, skipInventoryCheck := false }

/-- C7 counterexample: neither of the claimed rejections happens — the empty
basket is answered 201 and persists a sale with zero lines and zero totals,
and a basket line with quantity ZERO is also answered 201 and persisted
verbatim with its non-positive quantity, instead of a ValidationError. -/
theorem c7_counterexample :
    ((create_sale eReq eSt).1 = .created 1 0 0 0 0 0 []
      ∧ (create_sale eReq eSt).2.sales.length = 1)
    ∧ ((create_sale qReq qSt).1 = .created 1 0 0 0 0 1 []
      ∧ (create_sale qReq qSt).2.sales
          = [{ id := 1, branchId := 1, customerContact := "0300", paymentMethod := "cash"
               subtotal := 0, taxAmount := 0, discountAmount := 0, total := 0
               offlineSaleId := none
               lines := [{ menuItemId := 1, quantity := 0, unitPrice := 50
                           taxAmount := 0, total := 0 }] }]) := by
  refine ⟨⟨?_, ?_⟩, ?_, ?_⟩ <;>
    norm_num [create_sale, createSaleFinish, serializerOk, getOrCreateCustomer, preCheck,
      computeTotalsRestr, findMenuOfRestaurant, findMenu, dupOffline,
      Sale.process_inventory_deductions, pidGo, pidLine,
      List.find?, eReq, eSt, qReq, qSt, dMenu, wBranch]

/-- Witness for C7 (amended) at the quantity-zero fixture. -/
theorem create_sale_no_basket_validation_witness :
    (qReq.items = [] → dupOffline qSt.sales qReq.offlineSaleId = false →
      (create_sale qReq qSt).1
          = .created qSt.nextSaleId 0 0 qReq.discountAmount (0 + 0 - qReq.discountAmount) 0 []
      ∧ ∃ sale : Sale, (create_sale qReq qSt).2.sales = qSt.sales ++ [sale] ∧ sale.lines = [])
    ∧ (∀ items2 : List LineReq, serializerOk { qReq with items := items2 } = serializerOk qReq)
    ∧ ((∀ l ∈ qReq.items, ∃ mi : MenuItem,
          findMenu qSt.menuItems l.menuItemId = some mi
          ∧ findMenuOfRestaurant qSt.menuItems l.menuItemId wBranch.restaurantId = some mi
          ∧ noDeduction mi) →
        dupOffline qSt.sales qReq.offlineSaleId = false →
        (create_sale qReq qSt).1.isCreated = true
        ∧ ∃ sale : Sale, (create_sale qReq qSt).2.sales = qSt.sales ++ [sale]
            ∧ sale.lines.map (fun l => (l.menuItemId, l.quantity))
                = qReq.items.map (fun i => (i.menuItemId, i.quantity)))
    ∧ ((qReq.skipInventoryCheck = true
          ∨ preCheck qSt.menuItems qSt.inventory qReq.items = .ok ()
          ∨ preCheck qSt.menuItems qSt.inventory qReq.items = .error .notFound) →
        (∃ l ∈ qReq.items, findMenuOfRestaurant qSt.menuItems l.menuItemId wBranch.restaurantId = none) →
        create_sale qReq qSt = (.badRequest "One or more menu items not found", qSt)) :=
  create_sale_no_basket_validation qReq qSt 1 wBranch (by decide) rfl (by decide)
    (by norm_num [qSt, wBranch, List.find?])

/-! ### C8 — every stock mutation audited? -/

/-- Store for the adjust-stock counterexample: five litres of oil. -/
def aSt : St :=
  { branches := [], menuItems := []
    inventory := [{ id := 1, name := "Oil", stock := 5, unit := "L" }]
    customers := [], sales := [], transactions := [], nextSaleId := 1 }

/-- C8 counterexample: the `adjust_stock` endpoint mutates
`quantity_in_stock` directly (5 becomes 8) while its audit insert — which
carries neither previous nor new quantity — violates the NOT NULL columns
and fails, leaving a stock mutation with no `InventoryTransaction` at all,
and outside `deduct_quantity`/`add_quantity`. -/
theorem c8_counterexample :
    (adjust_stock aSt 1 true 3 "adjustment" "").1 = .insertFailed
    ∧ (adjust_stock aSt 1 true 3 "adjustment" "").2.inventory
        = [{ id := 1, name := "Oil", stock := 8, unit := "L" }]
    ∧ (adjust_stock aSt 1 true 3 "adjustment" "").2.transactions = [] := by
  refine ⟨?_, ?_, ?_⟩ <;>
    norm_num [adjust_stock, findInv, txnInsertOk, updateInv, List.find?, aSt]

/-- C8 amended: the ledger operations `deduct_quantity` and `add_quantity`
do pair every mutation with one atomically appended audit record carrying
the previous and new quantities, but `adjust_stock` bypasses them: it writes
the stock row directly and its audit insert (missing the required previous
and new quantities) fails, so that mutation is persisted with no audit
record. -/
theorem stock_mutation_audit (st : St) (itemId : ℕ) (item : InventoryItem)
    (adj : ℚ) (tt nts : String)
    (hfind : findInv st.inventory itemId = some item)
    (hnz : ¬ adj = 0) (hnn : ¬ item.stock + adj < 0) :
    adjust_stock st itemId true adj tt nts
      = (.insertFailed,
         { st with inventory := updateInv st.inventory { item with stock := item.stock + adj } })
    ∧ (∀ (inv : List InventoryItem) (txns : List InvTxn) (item2 : InventoryItem)
         (q : ℚ) (ty : String) (sid : Option ℕ) (no : String)
         (inv2 : List InventoryItem) (tx2 : List InvTxn),
         findInv inv itemId = some item2 →
         stockLedgerDeduct inv txns itemId q ty sid no = .ok (inv2, tx2) →
         ∃ t : InvTxn, tx2 = txns ++ [t] ∧ txnInsertOk t = true
           ∧ t.previousQuantity = some item2.stock
           ∧ t.newQuantity = some (item2.stock - q))
    ∧ (∀ (q : ℚ) (ty no : String) (it2 : InventoryItem) (t : InvTxn),
         item.add_quantity q ty no = .ok (it2, t) →
         t.previousQuantity = some item.stock ∧ t.newQuantity = some (item.stock + q)
           ∧ it2.stock = item.stock + q) := by
  refine ⟨?_, ?_, ?_⟩
  · unfold adjust_stock
    rw [hfind]
    dsimp only
    rw [if_neg hnz, if_neg hnn]
    rfl
  · intro inv txns item2 q ty sid no inv2 tx2 hfind2 h
    unfold stockLedgerDeduct at h
    rw [hfind2] at h
    unfold InventoryItem.deduct_quantity at h
    dsimp only at h
    by_cases h1 : q ≤ 0
    · rw [if_pos h1] at h; cases h
    · rw [if_neg h1] at h
      by_cases h2 : item2.stock < q
      · rw [if_pos h2] at h; cases h
      · rw [if_neg h2] at h
        dsimp only at h
        cases h
        exact ⟨_, rfl, rfl, rfl, rfl⟩
  · intro q ty no it2 t h
    unfold InventoryItem.add_quantity at h
    by_cases h1 : q ≤ 0
    · rw [if_pos h1] at h; cases h
    · rw [if_neg h1] at h
      cases h
      exact ⟨rfl, rfl, rfl⟩

/-- Witness for C8 (amended) at the oil fixture. -/
theorem stock_mutation_audit_witness :
    adjust_stock aSt 1 true 3 "adjustment" ""
      = (.insertFailed,
         { aSt with inventory := updateInv aSt.inventory ⟨1, "Oil", 5 + 3, "L"⟩ })
    ∧ (∀ (inv : List InventoryItem) (txns : List InvTxn) (item2 : InventoryItem)
         (q : ℚ) (ty : String) (sid : Option ℕ) (no : String)
         (inv2 : List InventoryItem) (tx2 : List InvTxn),
         findInv inv 1 = some item2 →
         stockLedgerDeduct inv txns 1 q ty sid no = .ok (inv2, tx2) →
         ∃ t : InvTxn, tx2 = txns ++ [t] ∧ txnInsertOk t = true
           ∧ t.previousQuantity = some item2.stock
           ∧ t.newQuantity = some (item2.stock - q))
    ∧ (∀ (q : ℚ) (ty no : String) (it2 : InventoryItem) (t : InvTxn),
         InventoryItem.add_quantity ⟨1, "Oil", 5, "L"⟩ q ty no = .ok (it2, t) →
         t.previousQuantity = some (⟨1, "Oil", 5, "L"⟩ : InventoryItem).stock
           ∧ t.newQuantity = some ((⟨1, "Oil", 5, "L"⟩ : InventoryItem).stock + q)
           ∧ it2.stock = (⟨1, "Oil", 5, "L"⟩ : InventoryItem).stock + q) :=
  stock_mutation_audit aSt 1 ⟨1, "Oil", 5, "L"⟩ 3 "adjustment" ""
    (by norm_num [aSt, findInv, List.find?]) (by norm_num) (by norm_num)

/-! ### C3 — deduction totals on reported-successful sales -/

/-- Menu for the bulk-sync fixture: one serving needs a full kilogram. -/
def bMenu : List MenuItem :=
  [{ id := 1, restaurantId := 1, name := "Tikka", price := 100
     recipe := some { isActive := true
                      ingredients := [{ inventoryItemId := 1, quantity := 1
                                        unit := "kg", isOptional := false }] } }]

/-- Only one kilogram of chicken in stock. -/
def bInv : List InventoryItem := [{ id := 1, name := "Chicken", stock := 1, unit := "kg" }]

/-- Store for the bulk-sync fixture. -/
def bSt : St :=
  { branches := [wBranch], menuItems := bMenu, inventory := bInv
    customers := [], sales := [], transactions := [], nextSaleId := 1 }

/-- An offline sale of two servings: its recipe needs two kilograms but only
one is in stock. -/
def bReq : CreateSaleReq :=
  { branchId := some 1, access := true, customerName := "Ali"
    customerContact := "0300", paymentMethod := "cash", discountAmount := 0
    items := [{ menuItemId := 1, quantity := 2 }]
    offlineSaleId := some "B1", skipInventoryCheck := false }

/-- C3 failing input: `bulk_sync_sales` discards the result of
`process_inventory_deductions` (views.py line 1249), so a sale whose
deductions fail for insufficient stock is still persisted, counted as
synced, and leaves inventory and the audit trail untouched — a successful
sale with its recipe-mandated deductions missing. -/
theorem c3_bulk_sync_drops_failed_deductions :
    (bulk_sync_sales [bReq] bSt).1
        = .report 1 0 [{ offlineId := some "B1", saleId := 1, total := 234 }] []
    ∧ (bulk_sync_sales [bReq] bSt).2.sales.length = 1
    ∧ (bulk_sync_sales [bReq] bSt).2.inventory = bInv
    ∧ (bulk_sync_sales [bReq] bSt).2.transactions = [] := by
  refine ⟨?_, ?_, ?_, ?_⟩ <;>
    norm_num [bulk_sync_sales, bulkGo, processOne, serializerOk, getOrCreateCustomer,
      computeTotalsAny, findMenu, findInv, dupOffline, Sale.process_inventory_deductions,
      pidGo, pidLine, deductIngredients, stockLedgerDeduct, InventoryItem.deduct_quantity,
      Recipe.check_availability, availGo, shortEntry, updateInv, List.find?, List.any,
      bReq, bSt, bMenu, bInv, wBranch]

/-! ### C9 — bulk sync partial success -/

/-- Each bulk request lands in exactly one of the two result lists. -/
theorem bulkGo_counts : ∀ (reqs : List CreateSaleReq) (st : St),
    (bulkGo reqs st).1.length + (bulkGo reqs st).2.1.length = reqs.length := by
  intro reqs
  induction reqs with
  | nil => intro st; simp [bulkGo]
  | cons r rest ih =>
    intro st
    unfold bulkGo
    cases hp : processOne r st with
    | mk res st2 =>
      cases res with
      | ok s =>
        simp only [List.length_cons]
        have := ih st2
        omega
      | error f =>
        simp only [List.length_cons]
        have := ih st2
        omega

/-- A failed bulk request leaves the store exactly as it found it. -/
theorem processOne_fail_frame (r : CreateSaleReq) (st : St) (f : FailEntry) (st2 : St)
    (h : processOne r st = (.error f, st2)) : st2 = st := by
  unfold processOne at h
  split at h
  · cases h; rfl
  · split at h
    · cases h; rfl
    · split at h
      next heq => cases h; rfl
      next branch heq =>
        dsimp only at h
        split at h
        next heq2 => cases h; rfl
        next lines sub tax heq2 =>
          split at h
          · cases h; rfl
          · split at h
            next msg heq3 => simp at h
            next a b c heq3 => simp at h

/-- C9 amended: for every NON-empty batch the endpoint answers with the 200
report whose synced and failed counts are the lengths of the two result
lists, every request lands in exactly one list (in input order), and a
failing request neither mutates the store it received nor stops the fold. -/
theorem bulk_sync_partial_success (reqs : List CreateSaleReq) (st : St)
    (hne : ¬ reqs = []) :
    (bulk_sync_sales reqs st).1
        = .report (bulkGo reqs st).1.length (bulkGo reqs st).2.1.length
            (bulkGo reqs st).1 (bulkGo reqs st).2.1
    ∧ (bulkGo reqs st).1.length + (bulkGo reqs st).2.1.length = reqs.length
    ∧ (∀ (r : CreateSaleReq) (s0 : St) (f : FailEntry) (s1 : St),
        processOne r s0 = (.error f, s1) → s1 = s0) := by
  refine ⟨?_, bulkGo_counts reqs st, fun r s0 f s1 h => processOne_fail_frame r s0 f s1 h⟩
  unfold bulk_sync_sales
  rw [if_neg (by simpa using hne)]

/-- Witness for C9 (amended) at the one-request fixture batch. -/
theorem bulk_sync_partial_success_witness :
    (bulk_sync_sales [bReq] bSt).1
        = .report (bulkGo [bReq] bSt).1.length (bulkGo [bReq] bSt).2.1.length
            (bulkGo [bReq] bSt).1 (bulkGo [bReq] bSt).2.1
    ∧ (bulkGo [bReq] bSt).1.length + (bulkGo [bReq] bSt).2.1.length = [bReq].length
    ∧ (∀ (r : CreateSaleReq) (s0 : St) (f : FailEntry) (s1 : St),
        processOne r s0 = (.error f, s1) → s1 = s0) :=
  bulk_sync_partial_success [bReq] bSt (by simp)

/-- C9 counterexample: an empty batch is answered with the 400 no-data
error, not with a synced/failed report — the HTTP-level-success promise does
not hold for every batch. -/
theorem c9_counterexample : bulk_sync_sales [] eSt = (.noData, eSt) := rfl

end RestaurantOS
